import Mathlib

/-!
Shallow embedding of the export-download route of the e-commerce demo backend
(src/demos/ecommerce_shop/backend/routes/export.ts): the single handler
registered as `router.post(endpoints.DOWNLOAD_EXPORT, ...)`.

The handler is embedded as a pure function `handle` from a configuration
(the environment-provided backend URL and the destination directory derived
from the module directory), an environment (the outcome of the remote HTTPS
GET, whether the write stream errors while piping, and whether the document
read and update operations of the store succeed — the store module itself is not
part of the analysed sources, so its operations are modelled from the spec),
a request body, the product store contents and a small filesystem, to a
`Result` carrying the final store, the final filesystem, the HTTP outcome and
a trace of the externally visible events in the order the handler performs
them.  Temporal claims (what happens before what) are read off the trace;
state claims are read off the final store and filesystem.
-/

namespace ExportRoute

/-- Design metadata attached to a product, from the backend models
(`ProductDesign`).  Only `designExportUrl` is touched by the handler; every
other field of the record is abstracted into `rest`. -/
structure ProductDesign where
  designExportUrl : String
  rest : String
deriving DecidableEq, Repr

/-- A product record (`Product` from the backend models): an id, optional
design metadata, and all remaining fields abstracted into `rest`. -/
structure Product where
  id : String
  canvaDesign : Option ProductDesign
  rest : String
deriving DecidableEq, Repr

/-- The request body (`DownloadExportedDesignRequest`): an optional
`productId` and the required `exportedDesignUrl`. -/
structure DownloadExportedDesignRequest where
  productId : Option String
  exportedDesignUrl : String
deriving DecidableEq, Repr

/-- JavaScript truthiness of the optional `productId` string, as used by
`if (requestBody.productId)`: an absent value and the empty string are
falsy, every other string is truthy. -/
def truthy : Option String → Bool
  | none => false
  | some s => s != ""

/-- Association-list filesystem: file lookup by exact path. -/
def lookupFile (p : String) : List (String × String) → Option String
  | [] => none
  | e :: t => if e.1 = p then some e.2 else lookupFile p t

/-- Association-list filesystem: remove every entry at a path. -/
def removeFile (p : String) : List (String × String) → List (String × String)
  | [] => []
  | e :: t => if e.1 = p then removeFile p t else e :: removeFile p t

/-- The filesystem visible to the handler: files (path to byte content, bytes
modelled as a `String`) and the set of existing directories. -/
structure Fs where
  files : List (String × String)
  dirs : List String
deriving DecidableEq, Repr

/-- Content of the file at a path, if present. -/
def Fs.lookup (fs : Fs) (p : String) : Option String := lookupFile p fs.files

/-- Create or truncate-and-overwrite the file at a path. -/
def Fs.write (fs : Fs) (p c : String) : Fs :=
  { fs with files := (p, c) :: removeFile p fs.files }

/-- `fs.unlink`: remove the file at a path. -/
def Fs.unlink (fs : Fs) (p : String) : Fs :=
  { fs with files := removeFile p fs.files }

/-- `fs.mkdirSync`: create a directory. -/
def Fs.mkdir (fs : Fs) (d : String) : Fs := { fs with dirs := d :: fs.dirs }

/-- `fs.existsSync` on a directory path. -/
def Fs.dirExists (fs : Fs) (d : String) : Bool := fs.dirs.contains d

/-- Externally visible events of one request, in program order. -/
inductive Ev where
  | dbRead
  | fsExistsCheck (dir : String)
  | mkdir (dir : String)
  | fsCreate (path : String)
  | httpGet (url : String)
  | statusObserved (code : Nat)
  | fsAppend (path : String) (bytes : String)
  | fsUnlink (path : String)
  | storeWrite (productId : String)
deriving DecidableEq, Repr

/-- An HTTP response body: the success shape `{ downloadedExportUrl }` or the
error shape `{ error, details? }`. -/
inductive RespBody where
  | success (downloadedExportUrl : String)
  | failure (error : String) (details : Option String)
deriving DecidableEq, Repr

/-- A sent HTTP response: status plus body. -/
structure HttpResponse where
  status : Nat
  body : RespBody
deriving DecidableEq, Repr

/-- Outcome of one request: either an HTTP response was sent, or an error
escaped the handler without being converted into a response. -/
inductive Outcome where
  | ok (r : HttpResponse)
  | uncaught (msg : String)
deriving DecidableEq, Repr

/-- What the remote server does when the handler issues the GET for the
exported design URL: the connection errors out before any status is seen, or
a response with a status code and body bytes arrives. -/
inductive RemoteResult where
  | transportErr (msg : String)
  | response (status : Nat) (body : String)
deriving DecidableEq, Repr

/-- The nondeterministic environment of one request.  `dbReadOk` and
`storeWriteOk` model whether the read-all and
product-update operations succeed; the store module is outside the analysed
sources, and the error taxonomy of the spec lists store read and update failures,
so both operations are modelled as fallible. -/
structure Env where
  dbReadOk : Bool
  remote : RemoteResult
  writeErr : Bool
  storeWriteOk : Bool
deriving DecidableEq, Repr

/-- Module-level configuration: `BACKEND_URL` from the environment and the
destination directory `__dirname.replace("/routes", "/public/exports")`. -/
structure Config where
  backendUrl : String
  destinationPath : String
deriving DecidableEq, Repr

/-- Final state of one request. -/
structure Result where
  trace : List Ev
  fs : Fs
  store : List Product
  outcome : Outcome
deriving DecidableEq, Repr

/-- JavaScript `String.prototype.split` with a one-character separator,
over character lists: splitting never yields the empty list. -/
def splitChar (c : Char) : List Char → List (List Char)
  | [] => [[]]
  | x :: t =>
    match splitChar c t with
    | [] => [[]]
    | h :: r => if x = c then [] :: h :: r else (x :: h) :: r

/-- Split a character list at the first occurrence of a separator sequence,
returning the parts before and after it, or `none` when it never occurs. -/
def splitSeq (sep : List Char) : List Char → Option (List Char × List Char)
  | [] => none
  | x :: t =>
    if sep.isPrefixOf (x :: t) then some ([], (x :: t).drop sep.length)
    else
      match splitSeq sep t with
      | none => none
      | some (b, a) => some (x :: b, a)

/-- Model of the Node WHATWG `new URL(u).pathname` restricted to URLs of the
shape `scheme://host/path...` without query or fragment: `none` when the
constructor would throw (no `://`, empty or slashed scheme, empty host),
`"/"` when there is no path after the host, otherwise the path beginning
with `/`. -/
def urlPathname (u : String) : Option String :=
  match splitSeq "://".data u.data with
  | none => none
  | some (scheme, rest) =>
    if scheme = [] ∨ scheme.contains '/' ∨ rest = [] then none
    else
      match splitChar '/' rest with
      | [] => none
      | host :: segs =>
        if host = [] then none
        else if segs = [] then some "/"
        else some (String.mk ('/' :: List.intercalate ['/'] segs))

/-- The filename derivation `exportPathName.split("/").pop()`: the last
component of the pathname split at `/` (the empty string when the pathname
ends in `/`). -/
def lastSeg (p : String) : String := String.mk ((splitChar '/' p.data).getLastD [])

/-- The structured 500 response built in the catch block of the handler:
`{ error: "Failed to download exported design", details: error.message }`. -/
def errorResp (msg : String) : HttpResponse :=
  ⟨500, .failure "Failed to download exported design" (some msg)⟩

/-- The productId validation at the top of the handler: when `productId` is
truthy, a missing product yields 404 and a product without design metadata
yields 400; otherwise no early response. -/
def productCheck (req : DownloadExportedDesignRequest) (product : Option Product) :
    Option HttpResponse :=
  if truthy req.productId then
    match product with
    | none => some ⟨404, .failure "Product not found" none⟩
    | some p =>
      match p.canvaDesign with
      | none => some ⟨400, .failure "No design found for product" none⟩
      | some _ => none
  else none

/-- The rejection message of the download promise, if it rejects: the
message of the transport error, `Failed to download: <status>` on a non-200
status, or the write-stream error. -/
def dlErr (env : Env) : Option String :=
  match env.remote with
  | .transportErr msg => some msg
  | .response st _ =>
    if st ≠ 200 then some ("Failed to download: " ++ toString st)
    else if env.writeErr then some "write stream error" else none

/-- The events of the download promise, in order: the write stream is opened
(creating or truncating the destination file) before the GET is issued; a
transport error unlinks the file before any status is observed; a non-200
status or a write error unlinks it after the status is observed; on a 200
status without write error the body is piped into the file. -/
def dlEvents (env : Env) (url destFile : String) : List Ev :=
  match env.remote with
  | .transportErr _ =>
    [.fsCreate destFile, .httpGet url, .fsUnlink destFile]
  | .response st body =>
    if st ≠ 200 then
      [.fsCreate destFile, .httpGet url, .statusObserved st, .fsUnlink destFile]
    else if env.writeErr then
      [.fsCreate destFile, .httpGet url, .statusObserved 200, .fsUnlink destFile]
    else
      [.fsCreate destFile, .httpGet url, .statusObserved 200, .fsAppend destFile body]

/-- The filesystem after the download promise settles: the destination file
is always created (truncated) by opening the write stream; every rejection
path unlinks it; the success path leaves it holding the response body. -/
def dlFs (env : Env) (fs : Fs) (destFile : String) : Fs :=
  match env.remote with
  | .transportErr _ => (fs.write destFile "").unlink destFile
  | .response st body =>
    if st ≠ 200 then (fs.write destFile "").unlink destFile
    else if env.writeErr then (fs.write destFile "").unlink destFile
    else (fs.write destFile "").write destFile body

/-- Modelled from the spec: `writeProduct` (routes/product.ts, not among the
analysed sources) — the product-update operation of the document store, replacing
the stored product whose id matches. -/
def writeProduct (store : List Product) (p : Product) : List Product :=
  store.map (fun q => if q.id = p.id then p else q)

/-- The tail of the handler after all validations passed: ensure the exports
directory exists, run the download promise, then on success optionally
update the product and respond; a rejection of the download promise is
turned into the structured 500 by the catch block, as is a store-update
failure (the file is not unlinked there). -/
def afterChecks (cfg : Config) (env : Env) (req : DownloadExportedDesignRequest)
    (store : List Product) (product : Option Product) (fs : Fs)
    (fileName : String) : Result :=
  let destFile := cfg.destinationPath ++ "/" ++ fileName
  let designExportUrl := cfg.backendUrl ++ "/public/exports/" ++ fileName
  let dirEvs :=
    if fs.dirExists cfg.destinationPath then [Ev.fsExistsCheck cfg.destinationPath]
    else [Ev.fsExistsCheck cfg.destinationPath, Ev.mkdir cfg.destinationPath]
  let fs1 := if fs.dirExists cfg.destinationPath then fs else fs.mkdir cfg.destinationPath
  match dlErr env with
  | some msg =>
    ⟨Ev.dbRead :: (dirEvs ++ dlEvents env req.exportedDesignUrl destFile),
     dlFs env fs1 destFile, store, .ok (errorResp msg)⟩
  | none =>
    match truthy req.productId, product with
    | true, some p =>
      if env.storeWriteOk then
        let d := p.canvaDesign.getD ⟨"", ""⟩
        ⟨Ev.dbRead :: (dirEvs ++ dlEvents env req.exportedDesignUrl destFile
            ++ [Ev.storeWrite p.id]),
         dlFs env fs1 destFile,
         writeProduct store { p with canvaDesign := some { d with designExportUrl := designExportUrl } },
         .ok ⟨200, .success designExportUrl⟩⟩
      else
        ⟨Ev.dbRead :: (dirEvs ++ dlEvents env req.exportedDesignUrl destFile),
         dlFs env fs1 destFile, store, .ok (errorResp "store write failed")⟩
    | _, _ =>
      ⟨Ev.dbRead :: (dirEvs ++ dlEvents env req.exportedDesignUrl destFile),
       dlFs env fs1 destFile, store, .ok ⟨200, .success designExportUrl⟩⟩

/-- The whole request handler.  `await db.read()` runs before the try block,
so its failure is not converted into a response; inside the try block, the
productId checks come first, then URL parsing and filename extraction, then
the directory check and the download, then the optional product update and
the success response; every error thrown inside the try block becomes the
structured 500. -/
def handle (cfg : Config) (env : Env) (req : DownloadExportedDesignRequest)
    (store : List Product) (fs : Fs) : Result :=
  if env.dbReadOk then
    let product := store.find? (fun p => some p.id == req.productId)
    match productCheck req product with
    | some r => ⟨[.dbRead], fs, store, .ok r⟩
    | none =>
      match urlPathname req.exportedDesignUrl with
      | none => ⟨[.dbRead], fs, store, .ok (errorResp "Invalid URL")⟩
      | some pathName =>
        let fileName := lastSeg pathName
        if fileName = "" then
          ⟨[.dbRead], fs, store,
           .ok (errorResp "Could not extract filename from export URL")⟩
        else afterChecks cfg env req store product fs fileName
  else ⟨[.dbRead], fs, store, .uncaught "db read failed"⟩

theorem lookupFile_removeFile (p : String) (l : List (String × String)) :
    lookupFile p (removeFile p l) = none := by
  induction l with
  | nil => rfl
  | cons e t ih =>
    by_cases h : e.1 = p
    · simpa [removeFile, h] using ih
    · simp [removeFile, lookupFile, h, ih]

theorem Fs.lookup_unlink (fs : Fs) (p : String) : (fs.unlink p).lookup p = none := by
  simp [Fs.unlink, Fs.lookup, lookupFile_removeFile]

theorem Fs.lookup_write (fs : Fs) (p c : String) : (fs.write p c).lookup p = some c := by
  simp [Fs.write, Fs.lookup, lookupFile]

theorem dlFs_lookup_of_fail (env : Env) (fs : Fs) (d : String) (h : dlErr env ≠ none) :
    (dlFs env fs d).lookup d = none := by
  obtain ⟨dbo, rem, we, swo⟩ := env
  cases rem with
  | transportErr m => simp [dlFs, Fs.lookup_unlink]
  | response st b =>
    by_cases hst : st = 200
    · subst hst
      cases we with
      | false => simp [dlErr] at h
      | true => simp [dlFs, Fs.lookup_unlink]
    · simp [dlFs, hst, Fs.lookup_unlink]

theorem dlFs_lookup_of_ok (env : Env) (fs : Fs) (d b : String)
    (h : env.remote = .response 200 b) (hwe : env.writeErr = false) :
    (dlFs env fs d).lookup d = some b := by
  obtain ⟨dbo, rem, we, swo⟩ := env
  cases h
  cases hwe
  simp [dlFs, Fs.lookup_write]

theorem dlErr_of_ok (env : Env) (b : String)
    (h : env.remote = .response 200 b) (hwe : env.writeErr = false) :
    dlErr env = none := by
  obtain ⟨dbo, rem, we, swo⟩ := env
  cases h
  cases hwe
  simp [dlErr]

theorem dlEvents_mem_create (env : Env) (u d : String) :
    Ev.fsCreate d ∈ dlEvents env u d := by
  obtain ⟨dbo, rem, we, swo⟩ := env
  cases rem with
  | transportErr m => simp [dlEvents]
  | response st b =>
    by_cases hst : st = 200 <;> cases we <;> simp [dlEvents, hst]

theorem dlEvents_mem_unlink_of_fail (env : Env) (u d : String) (h : dlErr env ≠ none) :
    Ev.fsUnlink d ∈ dlEvents env u d := by
  obtain ⟨dbo, rem, we, swo⟩ := env
  cases rem with
  | transportErr m => simp [dlEvents]
  | response st b =>
    by_cases hst : st = 200
    · subst hst
      cases we with
      | false => simp [dlErr] at h
      | true => simp [dlEvents]
    · simp [dlEvents, hst]

/-- The shapes a request outcome may take according to the spec: a 200
success body, a 404 or 400 error body without details, or a 500 error body
with details.  An uncaught error is none of them. -/
def structuredOutcome : Outcome → Bool
  | .ok r =>
    match r.status, r.body with
    | 200, .success _ => true
    | 404, .failure _ none => true
    | 400, .failure _ none => true
    | 500, .failure _ (some _) => true
    | _, _ => false
  | .uncaught _ => false

/-- Scanner over a trace: accepts when every `fsAppend` event is preceded by
an observation of a 200 status. -/
def seenAppendOk (seen : Bool) : List Ev → Bool
  | [] => true
  | e :: t =>
    match e with
    | .statusObserved c => seenAppendOk (seen || c == 200) t
    | .fsAppend _ _ => seen && seenAppendOk seen t
    | _ => seenAppendOk seen t

/-- Whether an event is an observation of a response status. -/
def isStatusEv : Ev → Bool
  | .statusObserved _ => true
  | _ => false

theorem productCheck_structured (req : DownloadExportedDesignRequest)
    (prod : Option Product) (r : HttpResponse)
    (h : productCheck req prod = some r) : structuredOutcome (.ok r) = true := by
  unfold productCheck at h
  split at h
  · split at h
    · cases h; rfl
    · split at h
      · cases h; rfl
      · cases h
  · cases h

theorem afterChecks_structured (cfg : Config) (env : Env)
    (req : DownloadExportedDesignRequest) (store : List Product)
    (product : Option Product) (fs : Fs) (fileName : String) :
    structuredOutcome (afterChecks cfg env req store product fs fileName).outcome = true := by
  unfold afterChecks
  by_cases hd : fs.dirExists cfg.destinationPath <;>
  · simp only [hd]
    split
    · rfl
    · split
      · split <;> rfl
      · rfl

theorem afterChecks_seenAppendOk (cfg : Config) (env : Env)
    (req : DownloadExportedDesignRequest) (store : List Product)
    (product : Option Product) (fs : Fs) (fileName : String) :
    seenAppendOk false (afterChecks cfg env req store product fs fileName).trace = true := by
  obtain ⟨dbo, rem, we, swo⟩ := env
  by_cases hd : fs.dirExists cfg.destinationPath
  all_goals cases rem with
  | transportErr m => simp [afterChecks, dlErr, dlEvents, seenAppendOk, hd]
  | response st b =>
    by_cases hst : st = 200
    · subst hst
      cases we with
      | true => simp [afterChecks, dlErr, dlEvents, seenAppendOk, hd]
      | false =>
        cases ht : truthy req.productId <;> cases product <;> cases swo <;>
          simp [afterChecks, dlErr, dlEvents, seenAppendOk, hd, ht]
    · simp [afterChecks, dlErr, dlEvents, seenAppendOk, hd, hst]

theorem afterChecks_not_truthy (cfg : Config) (env : Env)
    (req1 req2 : DownloadExportedDesignRequest) (store : List Product)
    (prod1 prod2 : Option Product) (fs : Fs) (fileName : String)
    (h1 : truthy req1.productId = false) (h2 : truthy req2.productId = false)
    (hu : req1.exportedDesignUrl = req2.exportedDesignUrl) :
    afterChecks cfg env req1 store prod1 fs fileName =
      afterChecks cfg env req2 store prod2 fs fileName := by
  unfold afterChecks
  rw [hu, h1, h2]

theorem handle_afterChecks (cfg : Config) (env : Env)
    (req : DownloadExportedDesignRequest) (store : List Product) (fs : Fs)
    (pn : String)
    (hdb : env.dbReadOk = true)
    (hpc : productCheck req (store.find? (fun p => some p.id == req.productId)) = none)
    (hurl : urlPathname req.exportedDesignUrl = some pn)
    (hfn : ¬ lastSeg pn = "") :
    handle cfg env req store fs =
      afterChecks cfg env req store
        (store.find? (fun p => some p.id == req.productId)) fs (lastSeg pn) := by
  unfold handle
  simp [hdb, hpc, hurl, hfn]

/-- C3 (confirmed): for every request that supplies a (truthy) productId, a
missing product yields the full result `404 Product not found` and a product
without design metadata yields `400 No design found for product`; in both
cases the result is exactly the initial store and filesystem with a trace
containing only the store read — no filename derivation, filesystem access
or network I/O has happened. -/
theorem c3_productId_checks (cfg : Config) (env : Env)
    (req : DownloadExportedDesignRequest) (store : List Product) (fs : Fs)
    (hdb : env.dbReadOk = true)
    (hp : truthy req.productId = true) :
    (store.find? (fun p => some p.id == req.productId) = none →
      handle cfg env req store fs =
        ⟨[.dbRead], fs, store, .ok ⟨404, .failure "Product not found" none⟩⟩) ∧
    (∀ p, store.find? (fun q => some q.id == req.productId) = some p →
      p.canvaDesign = none →
      handle cfg env req store fs =
        ⟨[.dbRead], fs, store, .ok ⟨400, .failure "No design found for product" none⟩⟩) := by
  constructor
  · intro hfind
    unfold handle
    simp [hdb, hfind, productCheck, hp]
  · intro p hfind hdes
    unfold handle
    simp [hdb, hfind, productCheck, hp, hdes]

/-- C3 witness: a store holding only a designless product `p1`; requesting
productId `zz` gives the 404 result and requesting `p1` gives the 400
result, both leaving store and filesystem untouched with a read-only trace. -/
theorem c3_witness :
    handle ⟨"http://b", "D"⟩ ⟨true, .response 200 "B", false, true⟩
        ⟨some "zz", "https://h/a.png"⟩ [⟨"p1", none, "r"⟩] ⟨[], []⟩ =
      ⟨[.dbRead], ⟨[], []⟩, [⟨"p1", none, "r"⟩],
       .ok ⟨404, .failure "Product not found" none⟩⟩ ∧
    handle ⟨"http://b", "D"⟩ ⟨true, .response 200 "B", false, true⟩
        ⟨some "p1", "https://h/a.png"⟩ [⟨"p1", none, "r"⟩] ⟨[], []⟩ =
      ⟨[.dbRead], ⟨[], []⟩, [⟨"p1", none, "r"⟩],
       .ok ⟨400, .failure "No design found for product" none⟩⟩ :=
  ⟨(c3_productId_checks ⟨"http://b", "D"⟩ ⟨true, .response 200 "B", false, true⟩
      ⟨some "zz", "https://h/a.png"⟩ [⟨"p1", none, "r"⟩] ⟨[], []⟩ rfl rfl).1 rfl,
   (c3_productId_checks ⟨"http://b", "D"⟩ ⟨true, .response 200 "B", false, true⟩
      ⟨some "p1", "https://h/a.png"⟩ [⟨"p1", none, "r"⟩] ⟨[], []⟩ rfl rfl).2
     ⟨"p1", none, "r"⟩ rfl rfl⟩

/-- C4 (confirmed): for every request that reaches the download and whose
remote GET returns a non-200 status, afterwards no file is present at the
derived destination path, and the response is the structured 500. -/
theorem c4_non200_cleanup (cfg : Config) (env : Env)
    (req : DownloadExportedDesignRequest) (store : List Product) (fs : Fs)
    (pn : String) (st : Nat) (b : String)
    (hdb : env.dbReadOk = true)
    (hpc : productCheck req (store.find? (fun p => some p.id == req.productId)) = none)
    (hurl : urlPathname req.exportedDesignUrl = some pn)
    (hfn : ¬ lastSeg pn = "")
    (hrem : env.remote = .response st b)
    (hst : st ≠ 200) :
    (handle cfg env req store fs).fs.lookup
        (cfg.destinationPath ++ "/" ++ lastSeg pn) = none ∧
    (handle cfg env req store fs).outcome =
      .ok (errorResp ("Failed to download: " ++ toString st)) := by
  rw [handle_afterChecks cfg env req store fs pn hdb hpc hurl hfn]
  have herr : dlErr env = some ("Failed to download: " ++ toString st) := by
    simp [dlErr, hrem, hst]
  unfold afterChecks
  simp only [herr]
  exact ⟨dlFs_lookup_of_fail _ _ _ (by simp [herr]), trivial⟩

/-- C4 witness: a GET answered with status 404 while a stale file sits at the
destination; afterwards the destination file is gone and the outcome is the
structured 500 with the status in the details. -/
theorem c4_witness :
    (handle ⟨"http://b", "D"⟩ ⟨true, .response 404 "nope", false, true⟩
        ⟨none, "https://h/a.png"⟩ [] ⟨[("D/a.png", "OLD")], ["D"]⟩).fs.lookup
        ("D" ++ "/" ++ lastSeg "/a.png") = none ∧
    (handle ⟨"http://b", "D"⟩ ⟨true, .response 404 "nope", false, true⟩
        ⟨none, "https://h/a.png"⟩ [] ⟨[("D/a.png", "OLD")], ["D"]⟩).outcome =
      .ok (errorResp ("Failed to download: " ++ toString 404)) :=
  c4_non200_cleanup ⟨"http://b", "D"⟩ ⟨true, .response 404 "nope", false, true⟩
    ⟨none, "https://h/a.png"⟩ [] ⟨[("D/a.png", "OLD")], ["D"]⟩ "/a.png" 404 "nope"
    rfl rfl rfl (by decide) rfl (by decide)

/-- C8 (confirmed): for every request whose source URL parses but whose
pathname has an empty final segment, the result of the handler is exactly the
structured 500 with the filename-extraction message, with the initial store
and filesystem unchanged and a trace containing only the store read — in
particular no network I/O happened. -/
theorem c8_no_filename (cfg : Config) (env : Env)
    (req : DownloadExportedDesignRequest) (store : List Product) (fs : Fs)
    (pn : String)
    (hdb : env.dbReadOk = true)
    (hpc : productCheck req (store.find? (fun p => some p.id == req.productId)) = none)
    (hurl : urlPathname req.exportedDesignUrl = some pn)
    (hfn : lastSeg pn = "") :
    handle cfg env req store fs =
      ⟨[.dbRead], fs, store,
       .ok (errorResp "Could not extract filename from export URL")⟩ := by
  unfold handle
  simp [hdb, hpc, hurl, hfn]

/-- C8 witness: the URL `https://host` has pathname `/`, whose final segment
is empty; the request ends in the filename-extraction 500 without touching
anything. -/
theorem c8_witness :
    handle ⟨"http://b", "D"⟩ ⟨true, .response 200 "B", false, true⟩
        ⟨none, "https://host"⟩ [] ⟨[], []⟩ =
      ⟨[.dbRead], ⟨[], []⟩, [],
       .ok (errorResp "Could not extract filename from export URL")⟩ :=
  c8_no_filename ⟨"http://b", "D"⟩ ⟨true, .response 200 "B", false, true⟩
    ⟨none, "https://host"⟩ [] ⟨[], []⟩ "/" rfl rfl rfl rfl

/-- C9 (confirmed): when a file already exists at the derived destination
path and the request reaches the download but the download fails (non-200
status, transport error or write error — exactly the cases where the
download promise rejects), the pre-existing file does not survive: the write
stream creation (which truncates it) and the cleanup unlink both appear in
the trace, and afterwards no file is present at the destination path. -/
theorem c9_preexisting_file_removed (cfg : Config) (env : Env)
    (req : DownloadExportedDesignRequest) (store : List Product) (fs : Fs)
    (pn c0 m : String)
    (hdb : env.dbReadOk = true)
    (hpc : productCheck req (store.find? (fun p => some p.id == req.productId)) = none)
    (hurl : urlPathname req.exportedDesignUrl = some pn)
    (hfn : ¬ lastSeg pn = "")
    (hpre : fs.lookup (cfg.destinationPath ++ "/" ++ lastSeg pn) = some c0)
    (hfail : dlErr env = some m) :
    (handle cfg env req store fs).fs.lookup
        (cfg.destinationPath ++ "/" ++ lastSeg pn) = none ∧
    Ev.fsCreate (cfg.destinationPath ++ "/" ++ lastSeg pn) ∈
      (handle cfg env req store fs).trace ∧
    Ev.fsUnlink (cfg.destinationPath ++ "/" ++ lastSeg pn) ∈
      (handle cfg env req store fs).trace := by
  rw [handle_afterChecks cfg env req store fs pn hdb hpc hurl hfn]
  unfold afterChecks
  simp only [hfail]
  refine ⟨dlFs_lookup_of_fail _ _ _ (by simp [hfail]), ?_, ?_⟩
  · exact List.mem_cons_of_mem _
      (List.mem_append_right _ (dlEvents_mem_create _ _ _))
  · exact List.mem_cons_of_mem _
      (List.mem_append_right _ (dlEvents_mem_unlink_of_fail _ _ _ (by simp [hfail])))

/-- C9 witness: a stale `OLD` file at the destination, a transport error
during the GET: afterwards the destination holds no file, and the trace
shows both the truncating stream creation and the cleanup unlink. -/
theorem c9_witness :
    (handle ⟨"http://b", "D"⟩ ⟨true, .transportErr "reset", false, true⟩
        ⟨none, "https://h/pre.png"⟩ [] ⟨[("D/pre.png", "OLD")], ["D"]⟩).fs.lookup
        ("D" ++ "/" ++ lastSeg "/pre.png") = none ∧
    Ev.fsCreate ("D" ++ "/" ++ lastSeg "/pre.png") ∈
      (handle ⟨"http://b", "D"⟩ ⟨true, .transportErr "reset", false, true⟩
        ⟨none, "https://h/pre.png"⟩ [] ⟨[("D/pre.png", "OLD")], ["D"]⟩).trace ∧
    Ev.fsUnlink ("D" ++ "/" ++ lastSeg "/pre.png") ∈
      (handle ⟨"http://b", "D"⟩ ⟨true, .transportErr "reset", false, true⟩
        ⟨none, "https://h/pre.png"⟩ [] ⟨[("D/pre.png", "OLD")], ["D"]⟩).trace :=
  c9_preexisting_file_removed ⟨"http://b", "D"⟩ ⟨true, .transportErr "reset", false, true⟩
    ⟨none, "https://h/pre.png"⟩ [] ⟨[("D/pre.png", "OLD")], ["D"]⟩ "/pre.png" "OLD" "reset"
    rfl rfl rfl (by decide) rfl rfl

/-- C10 (confirmed): a request whose productId is the empty string produces
exactly the same result — trace, filesystem, store and outcome — as the same
request with no productId at all, for every store (including stores that
contain a product whose id is the empty string), filesystem, environment and
configuration. -/
theorem c10_empty_productId (cfg : Config) (env : Env) (store : List Product)
    (fs : Fs) (u : String) :
    handle cfg env ⟨some "", u⟩ store fs = handle cfg env ⟨none, u⟩ store fs := by
  unfold handle
  by_cases hdb : env.dbReadOk
  · simp only [hdb, if_true, productCheck, truthy]
    simp only [bne_self_eq_false, if_false]
    cases urlPathname u with
    | none => rfl
    | some pn =>
      by_cases hfn : lastSeg pn = ""
      · simp [hfn]
      · simp only [hfn, if_false]
        exact afterChecks_not_truthy _ _ _ _ _ _ _ _ _ rfl rfl rfl
  · simp [hdb]

/-- C1 (corrected): cleanup of the destination file is guaranteed only for
failures of the download itself — non-success status, transport error or
write error, exactly the cases where the download promise rejects.  For
every such request the file at the derived destination path is absent
afterwards and the structured 500 carries the rejection message.  (A failure
after the download completes, such as the product-store update throwing,
sends the structured error but leaves the file in place — see the
counterexample.) -/
theorem c1_download_phase_cleanup (cfg : Config) (env : Env)
    (req : DownloadExportedDesignRequest) (store : List Product) (fs : Fs)
    (pn m : String)
    (hdb : env.dbReadOk = true)
    (hpc : productCheck req (store.find? (fun p => some p.id == req.productId)) = none)
    (hurl : urlPathname req.exportedDesignUrl = some pn)
    (hfn : ¬ lastSeg pn = "")
    (hfail : dlErr env = some m) :
    (handle cfg env req store fs).fs.lookup
        (cfg.destinationPath ++ "/" ++ lastSeg pn) = none ∧
    (handle cfg env req store fs).outcome = .ok (errorResp m) := by
  rw [handle_afterChecks cfg env req store fs pn hdb hpc hurl hfn]
  unfold afterChecks
  simp only [hfail]
  exact ⟨dlFs_lookup_of_fail _ _ _ (by simp [hfail]), trivial⟩

/-- C1 witness: a write-stream error while piping a 200 body; afterwards the
destination file is gone and the structured 500 carries the write error. -/
theorem c1_witness :
    (handle ⟨"http://b", "D"⟩ ⟨true, .response 200 "BB", true, true⟩
        ⟨none, "https://h/c1w.png"⟩ [] ⟨[], ["D"]⟩).fs.lookup
        ("D" ++ "/" ++ lastSeg "/c1w.png") = none ∧
    (handle ⟨"http://b", "D"⟩ ⟨true, .response 200 "BB", true, true⟩
        ⟨none, "https://h/c1w.png"⟩ [] ⟨[], ["D"]⟩).outcome =
      .ok (errorResp "write stream error") :=
  c1_download_phase_cleanup ⟨"http://b", "D"⟩ ⟨true, .response 200 "BB", true, true⟩
    ⟨none, "https://h/c1w.png"⟩ [] ⟨[], ["D"]⟩ "/c1w.png" "write stream error"
    rfl rfl rfl (by decide) rfl

/-- C1 counterexample: the download succeeds but the product-store update
fails; the handler sends the structured error response while the downloaded
file persists at the destination path — a side effect of the failed request
survives past cleanup, contrary to the claim. -/
theorem c1_counterexample :
    (handle ⟨"http://b", "D"⟩ ⟨true, .response 200 "NEWBYTES", false, false⟩
        ⟨some "c1p", "https://h/c1.png"⟩ [⟨"c1p", some ⟨"oldurl", "dr"⟩, "r"⟩]
        ⟨[], ["D"]⟩).outcome = .ok (errorResp "store write failed") ∧
    (handle ⟨"http://b", "D"⟩ ⟨true, .response 200 "NEWBYTES", false, false⟩
        ⟨some "c1p", "https://h/c1.png"⟩ [⟨"c1p", some ⟨"oldurl", "dr"⟩, "r"⟩]
        ⟨[], ["D"]⟩).fs.lookup "D/c1.png" = some "NEWBYTES" :=
  ⟨rfl, rfl⟩

/-- C2 (corrected): the handler opens the write stream — creating or
truncating the destination file — before the GET response status is
observed; what is gated on the 200 status is only the writing of response
body bytes: in every trace, every `fsAppend` event is preceded by an
observation of status 200. -/
theorem c2_append_only_after_200 (cfg : Config) (env : Env)
    (req : DownloadExportedDesignRequest) (store : List Product) (fs : Fs) :
    seenAppendOk false (handle cfg env req store fs).trace = true := by
  unfold handle
  by_cases hdb : env.dbReadOk
  · simp only [hdb, if_true]
    split
    · rfl
    · split
      · rfl
      · split
        · rfl
        · exact afterChecks_seenAppendOk _ _ _ _ _ _ _
  · simp [hdb, seenAppendOk]

/-- C2 counterexample: a transport error means no status is ever observed,
yet the trace contains the creation of the destination file, and the
pre-existing file at that path has been destroyed — the disk was mutated
at the destination path before (indeed without) any success status. -/
theorem c2_counterexample :
    (handle ⟨"http://b", "D"⟩ ⟨true, .transportErr "conn reset", false, true⟩
        ⟨none, "https://h/c2.png"⟩ [] ⟨[("D/c2.png", "OLD")], ["D"]⟩).trace.contains
        (Ev.fsCreate "D/c2.png") = true ∧
    ((handle ⟨"http://b", "D"⟩ ⟨true, .transportErr "conn reset", false, true⟩
        ⟨none, "https://h/c2.png"⟩ [] ⟨[("D/c2.png", "OLD")], ["D"]⟩).trace.any
        isStatusEv) = false ∧
    (handle ⟨"http://b", "D"⟩ ⟨true, .transportErr "conn reset", false, true⟩
        ⟨none, "https://h/c2.png"⟩ [] ⟨[("D/c2.png", "OLD")], ["D"]⟩).fs.lookup
        "D/c2.png" = none :=
  ⟨rfl, rfl, rfl⟩

/-- C5 (corrected): for every request that reaches the download, whose
remote GET returns 200 with body bytes b, whose write stream does not error
and whose product-store update (if any) succeeds, the handler responds
`200 { downloadedExportUrl }` with the configured base URL followed by
`/public/exports/` and the derived filename, and the destination file holds
exactly b.  (When the store update fails the response is the structured 500
instead — see the counterexample.) -/
theorem c5_success_response (cfg : Config) (env : Env)
    (req : DownloadExportedDesignRequest) (store : List Product) (fs : Fs)
    (pn b : String)
    (hdb : env.dbReadOk = true)
    (hpc : productCheck req (store.find? (fun p => some p.id == req.productId)) = none)
    (hurl : urlPathname req.exportedDesignUrl = some pn)
    (hfn : ¬ lastSeg pn = "")
    (hrem : env.remote = .response 200 b)
    (hwe : env.writeErr = false)
    (hsw : env.storeWriteOk = true) :
    (handle cfg env req store fs).outcome =
      .ok ⟨200, .success (cfg.backendUrl ++ "/public/exports/" ++ lastSeg pn)⟩ ∧
    (handle cfg env req store fs).fs.lookup
        (cfg.destinationPath ++ "/" ++ lastSeg pn) = some b := by
  rw [handle_afterChecks cfg env req store fs pn hdb hpc hurl hfn]
  have hdl : dlErr env = none := dlErr_of_ok env b hrem hwe
  unfold afterChecks
  simp only [hdl]
  split
  · simp only [hsw, reduceIte]
    exact ⟨trivial, dlFs_lookup_of_ok _ _ _ _ hrem hwe⟩
  · exact ⟨rfl, dlFs_lookup_of_ok _ _ _ _ hrem hwe⟩

/-- C5 witness: a 200 download of `C5BYTES` with no productId; the response
carries the derived public URL and the destination file holds the bytes. -/
theorem c5_witness :
    (handle ⟨"http://b", "D"⟩ ⟨true, .response 200 "C5BYTES", false, true⟩
        ⟨none, "https://h/c5.png"⟩ [] ⟨[], ["D"]⟩).outcome =
      .ok ⟨200, .success ("http://b" ++ "/public/exports/" ++ lastSeg "/c5.png")⟩ ∧
    (handle ⟨"http://b", "D"⟩ ⟨true, .response 200 "C5BYTES", false, true⟩
        ⟨none, "https://h/c5.png"⟩ [] ⟨[], ["D"]⟩).fs.lookup
        ("D" ++ "/" ++ lastSeg "/c5.png") = some "C5BYTES" :=
  c5_success_response ⟨"http://b", "D"⟩ ⟨true, .response 200 "C5BYTES", false, true⟩
    ⟨none, "https://h/c5.png"⟩ [] ⟨[], ["D"]⟩ "/c5.png" "C5BYTES"
    rfl rfl rfl (by decide) rfl rfl rfl

/-- C5 counterexample: the source URL is reachable and returns 200, but the
product-store update fails, so the handler responds with the structured 500
rather than the promised `200 { downloadedExportUrl }`. -/
theorem c5_counterexample :
    (handle ⟨"http://b", "D"⟩ ⟨true, .response 200 "C5X", false, false⟩
        ⟨some "c5p", "https://h/c5x.png"⟩ [⟨"c5p", some ⟨"o", "dd"⟩, "r"⟩]
        ⟨[], ["D"]⟩).outcome = .ok (errorResp "store write failed") :=
  rfl

/-- C6 (corrected): for every request with a valid productId whose download
succeeds and whose product-store update also succeeds, the final store is
the initial store with exactly the `designExportUrl` of the matching product
replaced by the new locally-served URL — every other field of its design
metadata, every other field of the product and every other product are
unchanged — and the response is the 200 success.  (When the store update
fails the store is unchanged — see the counterexample.) -/
theorem c6_design_url_updated (cfg : Config) (env : Env) (store : List Product)
    (fs : Fs) (pid u pn b : String) (p : Product) (d : ProductDesign)
    (hdb : env.dbReadOk = true)
    (hpid : ¬ pid = "")
    (hfind : store.find? (fun q => some q.id == (some pid : Option String)) = some p)
    (hdes : p.canvaDesign = some d)
    (hurl : urlPathname u = some pn)
    (hfn : ¬ lastSeg pn = "")
    (hrem : env.remote = .response 200 b)
    (hwe : env.writeErr = false)
    (hsw : env.storeWriteOk = true) :
    (handle cfg env ⟨some pid, u⟩ store fs).store =
      store.map (fun q =>
        if q.id = p.id then
          { id := p.id,
            canvaDesign :=
              some ⟨cfg.backendUrl ++ "/public/exports/" ++ lastSeg pn, d.rest⟩,
            rest := p.rest }
        else q) ∧
    (handle cfg env ⟨some pid, u⟩ store fs).outcome =
      .ok ⟨200, .success (cfg.backendUrl ++ "/public/exports/" ++ lastSeg pn)⟩ := by
  have ht : truthy (some pid) = true := by simp [truthy, hpid]
  have hpc : productCheck ⟨some pid, u⟩
      (store.find? (fun q => some q.id ==
        (⟨some pid, u⟩ : DownloadExportedDesignRequest).productId)) = none := by
    simp only [productCheck, ht, if_true, hfind, hdes]
  rw [handle_afterChecks cfg env ⟨some pid, u⟩ store fs pn hdb hpc hurl hfn]
  have hdl : dlErr env = none := dlErr_of_ok env b hrem hwe
  unfold afterChecks
  simp only [hdl, ht, hfind, hsw, reduceIte, hdes, writeProduct]
  exact ⟨rfl, trivial⟩

/-- C6 witness: product `c6w` with design metadata `⟨"oldurl", "dr"⟩` beside
an untouched product `zz`; after a successful download of `c6w.png` the
store holds `c6w` with only its `designExportUrl` replaced by the new public
URL, and the response is the 200 success. -/
theorem c6_witness :
    (handle ⟨"http://b", "D"⟩ ⟨true, .response 200 "C6W", false, true⟩
        ⟨some "c6w", "https://h/c6w.png"⟩
        [⟨"c6w", some ⟨"oldurl", "dr"⟩, "r"⟩, ⟨"zz", none, "s"⟩] ⟨[], ["D"]⟩).store =
      [⟨"c6w", some ⟨"oldurl", "dr"⟩, "r"⟩, ⟨"zz", none, "s"⟩].map (fun q =>
        if q.id = (⟨"c6w", some ⟨"oldurl", "dr"⟩, "r"⟩ : Product).id then
          { id := (⟨"c6w", some ⟨"oldurl", "dr"⟩, "r"⟩ : Product).id,
            canvaDesign :=
              some ⟨"http://b" ++ "/public/exports/" ++ lastSeg "/c6w.png",
                    (⟨"oldurl", "dr"⟩ : ProductDesign).rest⟩,
            rest := (⟨"c6w", some ⟨"oldurl", "dr"⟩, "r"⟩ : Product).rest }
        else q) ∧
    (handle ⟨"http://b", "D"⟩ ⟨true, .response 200 "C6W", false, true⟩
        ⟨some "c6w", "https://h/c6w.png"⟩
        [⟨"c6w", some ⟨"oldurl", "dr"⟩, "r"⟩, ⟨"zz", none, "s"⟩] ⟨[], ["D"]⟩).outcome =
      .ok ⟨200, .success ("http://b" ++ "/public/exports/" ++ lastSeg "/c6w.png")⟩ :=
  c6_design_url_updated ⟨"http://b", "D"⟩ ⟨true, .response 200 "C6W", false, true⟩
    [⟨"c6w", some ⟨"oldurl", "dr"⟩, "r"⟩, ⟨"zz", none, "s"⟩] ⟨[], ["D"]⟩
    "c6w" "https://h/c6w.png" "/c6w.png" "C6W"
    ⟨"c6w", some ⟨"oldurl", "dr"⟩, "r"⟩ ⟨"oldurl", "dr"⟩
    rfl (by decide) rfl rfl rfl (by decide) rfl rfl rfl

/-- C6 counterexample: a valid productId and a successful download (the
destination file holds the downloaded bytes), but the store update fails:
the stored product still carries its old `designExportUrl`, contrary to the
claim. -/
theorem c6_counterexample :
    (handle ⟨"http://b", "D"⟩ ⟨true, .response 200 "C6B", false, false⟩
        ⟨some "c6p", "https://h/c6.png"⟩ [⟨"c6p", some ⟨"oldurl", "dr"⟩, "r"⟩]
        ⟨[], ["D"]⟩).store = [⟨"c6p", some ⟨"oldurl", "dr"⟩, "r"⟩] ∧
    (handle ⟨"http://b", "D"⟩ ⟨true, .response 200 "C6B", false, false⟩
        ⟨some "c6p", "https://h/c6.png"⟩ [⟨"c6p", some ⟨"oldurl", "dr"⟩, "r"⟩]
        ⟨[], ["D"]⟩).fs.lookup "D/c6.png" = some "C6B" :=
  ⟨rfl, rfl⟩

/-- C7 (corrected): whenever the initial store read succeeds, every error
raised during handling — validation, URL parsing, filename extraction,
download, filesystem, store update — is converted into one of the structured
responses: 200 success, 404 or 400 with an error body, or 500 with error and
details; no outcome is a crash.  (The store read itself runs before the try
block, and its failure escapes uncaught — see the counterexample.) -/
theorem c7_structured_when_read_ok (cfg : Config) (env : Env)
    (req : DownloadExportedDesignRequest) (store : List Product) (fs : Fs)
    (hdb : env.dbReadOk = true) :
    structuredOutcome (handle cfg env req store fs).outcome = true := by
  cases hpc : productCheck req (store.find? (fun p => some p.id == req.productId)) with
  | some r =>
    have hh : handle cfg env req store fs = ⟨[.dbRead], fs, store, .ok r⟩ := by
      unfold handle; simp [hdb, hpc]
    rw [hh]
    exact productCheck_structured _ _ _ hpc
  | none =>
    cases hu : urlPathname req.exportedDesignUrl with
    | none =>
      have hh : handle cfg env req store fs =
          ⟨[.dbRead], fs, store, .ok (errorResp "Invalid URL")⟩ := by
        unfold handle; simp [hdb, hpc, hu]
      rw [hh]
      rfl
    | some pn =>
      by_cases hfn : lastSeg pn = ""
      · have hh : handle cfg env req store fs =
            ⟨[.dbRead], fs, store,
             .ok (errorResp "Could not extract filename from export URL")⟩ := by
          unfold handle; simp [hdb, hpc, hu, hfn]
        rw [hh]
        rfl
      · rw [handle_afterChecks cfg env req store fs pn hdb hpc hu hfn]
        exact afterChecks_structured _ _ _ _ _ _ _

/-- C7 witness: a remote failure (status 500 from the source) with a
successful store read still ends in a structured outcome. -/
theorem c7_witness :
    structuredOutcome (handle ⟨"http://b", "D"⟩ ⟨true, .response 500 "ERR", false, true⟩
      ⟨none, "https://h/c7.png"⟩ [] ⟨[], []⟩).outcome = true :=
  c7_structured_when_read_ok ⟨"http://b", "D"⟩ ⟨true, .response 500 "ERR", false, true⟩
    ⟨none, "https://h/c7.png"⟩ [] ⟨[], []⟩ rfl

/-- C7 counterexample: the initial store read happens before the try block;
when it fails the outcome is an uncaught error, not one of the three
structured HTTP error responses. -/
theorem c7_counterexample :
    (handle ⟨"http://b", "D"⟩ ⟨false, .response 200 "B", false, true⟩
        ⟨none, "https://h/c7x.png"⟩ [] ⟨[], []⟩).outcome =
      .uncaught "db read failed" ∧
    structuredOutcome (handle ⟨"http://b", "D"⟩ ⟨false, .response 200 "B", false, true⟩
        ⟨none, "https://h/c7x.png"⟩ [] ⟨[], []⟩).outcome = false :=
  ⟨rfl, rfl⟩

end ExportRoute
